import Mathlib

/-!
Shallow embedding of the Pharma-Contact-Intelligence front end:
the user listing page (`src/pages/user/ListingPage.tsx`), the admin
console (`src/pages/admin/ContactManagement.tsx`) and the filter panel
(`src/components/FilterPanel.tsx`).

React `useState` cells become fields of explicit state records; each
event handler or effect becomes a pure function from the pre-state
(plus the outcome of the awaited API call, modelled as an `Option` /
explicit data) to the post-state together with the observable effects
it produces (API requests issued, toast notifications shown).
-/

namespace PharmaContacts

/-- Contact record as consumed by the pages (the shape of the `Contact`
type imported from `api/contacts`, restricted to the fields the pages
read and patch). -/
structure Contact where
  id : String
  company_name : String
  company_website : String
  person_name : String
  designation : String
  department : String
  company_type : String
  city : String
  person_country : String
  email : String
  phone : String
  is_verified : Nat
  deriving Repr, DecidableEq

/-- A JavaScript object-spread patch over a `Contact`: each field is
optionally present, and a present field overrides the base object.
`applyPatch c p` is the semantics of the spread `{ ...c, ...p }` used in
`handleRevealContact` (ListingPage.tsx line 83). -/
structure ContactPatch where
  id : Option String := none
  company_name : Option String := none
  company_website : Option String := none
  person_name : Option String := none
  designation : Option String := none
  department : Option String := none
  company_type : Option String := none
  city : Option String := none
  person_country : Option String := none
  email : Option String := none
  phone : Option String := none
  is_verified : Option Nat := none
  deriving Repr, DecidableEq

/-- Object-spread merge `{ ...c, ...p }`: fields present in the patch win. -/
def applyPatch (c : Contact) (p : ContactPatch) : Contact where
  id := p.id.getD c.id
  company_name := p.company_name.getD c.company_name
  company_website := p.company_website.getD c.company_website
  person_name := p.person_name.getD c.person_name
  designation := p.designation.getD c.designation
  department := p.department.getD c.department
  company_type := p.company_type.getD c.company_type
  city := p.city.getD c.city
  person_country := p.person_country.getD c.person_country
  email := p.email.getD c.email
  phone := p.phone.getD c.phone
  is_verified := p.is_verified.getD c.is_verified

/-- Paginated response of `getContacts` as read by both pages
(`response.data`, `response.total`, `response.current_page`,
`response.last_page`). -/
structure ContactsResponse where
  data : List Contact
  total : Nat
  current_page : Nat
  last_page : Nat
  deriving Repr, DecidableEq

/-- The listing page search parameters (`searchParams` state, ListingPage.tsx
lines 34-43): `company_name` is a string array, all other fields are strings. -/
structure SearchParams where
  company_name : List String
  person_name : String
  department : String
  designation : String
  company_type : String
  person_country : String
  company_country : String
  city : String
  deriving Repr, DecidableEq

/-- `const ITEMS_PER_PAGE = 10` (ListingPage.tsx line 24). -/
def ITEMS_PER_PAGE : Nat := 10

/-- The query object handed to `getContacts` by the listing page's
`fetchContacts` (the `apiParams` local, lines 252-259): every field of
`searchParams` plus `page` and `per_page`, with `company_name` flattened
to a comma separated string. -/
structure ApiParams where
  company_name : String
  person_name : String
  department : String
  designation : String
  company_type : String
  person_country : String
  company_country : String
  city : String
  page : Nat
  per_page : Nat
  deriving Repr, DecidableEq

/-- Building of `apiParams` inside the listing page's `fetchContacts`:
spread of `searchParams` with `company_name` replaced by
`searchParams.company_name.join(',')` (the array branch of the
`Array.isArray` test, which is the live branch for the declared state
type), plus `page` and `per_page = ITEMS_PER_PAGE`. -/
def toApiParams (sp : SearchParams) (page : Nat) : ApiParams where
  company_name := String.intercalate "," sp.company_name
  person_name := sp.person_name
  department := sp.department
  designation := sp.designation
  company_type := sp.company_type
  person_country := sp.person_country
  company_country := sp.company_country
  city := sp.city
  page := page
  per_page := ITEMS_PER_PAGE

/-- The listing page component state: the `useState` cells of
`ListingPage` that the pagination and reveal logic touches, plus the
`coins` credit balance drawn from the app context. -/
structure ListingState where
  allContacts : List Contact
  currentPage : Nat
  hasMoreData : Bool
  isLoading : Bool
  totalItems : Nat
  searchParams : SearchParams
  coins : Nat
  deriving Repr, DecidableEq

/-- The listing page's `fetchContacts(page, isLoadMore)` (lines 244-295).
Returns the request sent to `getContacts` together with the post-state.
`result = some response` models a resolved call, `none` a thrown one.
On success: load-more appends `response.data` to `allContacts`, otherwise
the list is replaced and `currentPage` reset to 1; then `totalItems` and
`hasMoreData` are updated from the response. On failure a non-load-more
fetch clears the list, `totalItems` and `hasMoreData`; a load-more fetch
changes nothing. The `finally` clears `isLoading` only when not
load-more. -/
def fetchContacts (s : ListingState) (page : Nat) (isLoadMore : Bool)
    (result : Option ContactsResponse) : ApiParams × ListingState :=
  let request := toApiParams s.searchParams page
  match result with
  | some response =>
    let s1 :=
      if isLoadMore then
        { s with allContacts := s.allContacts ++ response.data }
      else
        { s with allContacts := response.data, currentPage := 1 }
    (request,
      { s1 with
        totalItems := response.total
        hasMoreData := decide (response.current_page < response.last_page)
        isLoading := if isLoadMore then s1.isLoading else false })
  | none =>
    if isLoadMore then
      (request, s)
    else
      (request,
        { s with allContacts := [], totalItems := 0, hasMoreData := false,
                 isLoading := false })

/-- `loadMoreContacts` (lines 49-53): computes `nextPage = currentPage + 1`,
stores it, and awaits `fetchContacts(nextPage, true)`. -/
def loadMoreContacts (s : ListingState) (result : Option ContactsResponse) :
    ApiParams × ListingState :=
  let nextPage := s.currentPage + 1
  fetchContacts { s with currentPage := nextPage } nextPage true result

/-- The reset performed by the `useEffect` on `[searchParams]`
(lines 303-309) before refetching: `setCurrentPage(1)`,
`setAllContacts([])`, `setHasMoreData(true)`. -/
def resetInfiniteScroll (s : ListingState) : ListingState :=
  { s with currentPage := 1, allContacts := [], hasMoreData := true }

/-- The whole `useEffect` on `[searchParams]`: reset the infinite-scroll
state, then `fetchContacts(1, false)`. -/
def onSearchParamsChange (s : ListingState) (result : Option ContactsResponse) :
    ApiParams × ListingState :=
  fetchContacts (resetInfiniteScroll s) 1 false result

/-- Kind of a toast notification (`showToast(message, kind)`). -/
inductive ToastKind where
  | success
  | error
  deriving Repr, DecidableEq

/-- Response of `revealContact` as read by `handleRevealContact`:
`response.contact` (the revealed field values merged into the row) and
`response.available_credit`. -/
structure RevealResponse where
  contact : ContactPatch
  available_credit : Nat
  deriving Repr, DecidableEq

/-- Observable outcome of `handleRevealContact`: the post-state, whether
`revealContact` was actually invoked, and the toasts shown. -/
structure RevealOutcome where
  state : ListingState
  apiCalled : Bool
  toasts : List (String × ToastKind)
  deriving Repr, DecidableEq

/-- The insufficient-credits toast text (ListingPage.tsx line 71). -/
def insufficientCreditsMsg : String :=
  "Insufficient credits! You need more than 50 credits to reveal contact information. Please purchase more credits to continue."

/-- The success toast of a reveal (line 77). -/
def addedMsg (name : String) : String :=
  "Added " ++ name ++ " to your list"

/-- The failure toast of a reveal (line 89). -/
def revealFailedMsg : String :=
  "Failed to reveal contact information"

/-- The listing page's `handleRevealContact` (lines 67-91). With
`coins <= 50` it returns before calling the API, showing only the
insufficient-credits error. Otherwise `revealContact(contact.id)` is
awaited: on success `coins` becomes `response.available_credit`, the
success toast is shown, and every list element whose `id` equals
`contact.id` is replaced by itself spread with `response.contact`; on a
thrown call the state is unchanged and the failure toast shown. -/
def handleRevealContact (s : ListingState) (contact : Contact)
    (result : Option RevealResponse) : RevealOutcome :=
  if s.coins ≤ 50 then
    { state := s, apiCalled := false,
      toasts := [(insufficientCreditsMsg, ToastKind.error)] }
  else
    match result with
    | some response =>
      { state :=
          { s with
            coins := response.available_credit
            allContacts := s.allContacts.map fun c =>
              if c.id = contact.id then applyPatch c response.contact else c }
        apiCalled := true
        toasts := [(addedMsg contact.person_name, ToastKind.success)] }
    | none =>
      { state := s, apiCalled := true,
        toasts := [(revealFailedMsg, ToastKind.error)] }

/-- Admin console search parameters (`searchParams` state,
ContactManagement.tsx lines 36-41): four plain string fields. -/
structure AdminSearchParams where
  company_name : String
  designation : String
  person_country : String
  city : String
  deriving Repr, DecidableEq

/-- `Object.entries(searchParams)` for the admin search parameters, in
declaration order. -/
def adminEntries (sp : AdminSearchParams) : List (String × String) :=
  [("company_name", sp.company_name), ("designation", sp.designation),
   ("person_country", sp.person_country), ("city", sp.city)]

/-- The entry predicate of the admin `fetchContacts` filter
(ContactManagement.tsx line 144): `value && value.trim() !== ''` — for a
string value, truthiness is inequality with the empty string. -/
def keptEntry (v : String) : Bool :=
  decide (v ≠ "") && decide (v.trim ≠ "")

/-- The request the admin `fetchContacts` hands to `getContacts`
(lines 147-151): the kept filter entries spread together with `page` and
`per_page: 10`. -/
structure AdminRequest where
  filters : List (String × String)
  page : Nat
  per_page : Nat
  deriving Repr, DecidableEq

/-- Admin `fetchContacts(page, resetFilters)` request composition
(lines 138-151): `searchParamsToSend` filters the entries of
`resetFilters ? {} : searchParams` by `keptEntry`, and the request adds
`page` and `per_page = 10`. -/
def adminFetchRequest (sp : AdminSearchParams) (page : Nat)
    (resetFilters : Bool) : AdminRequest where
  filters :=
    (if resetFilters then ([] : List (String × String)) else adminEntries sp).filter
      fun kv => keptEntry kv.2
  page := page
  per_page := 10

/-- Contact status values used by the bulk status action. -/
inductive ContactStatus where
  | Active
  | Inactive
  deriving Repr, DecidableEq

/-- `selectedIds` as computed in `handleBulkStatusConfirm`
(lines 351-353): the keys of the `selectedRows` record whose value is
true. The record is modelled as an association list in key order. -/
def selectedIds (rows : List (String × Bool)) : List String :=
  (rows.filter fun kv => kv.2).map fun kv => kv.1

/-- Observable outcome of `handleBulkStatusConfirm`: the
`updateContactStatus` calls issued (in order), the resulting
`selectedRows`, and the page refetched (if any). -/
structure BulkStatusOutcome where
  statusCalls : List (String × ContactStatus)
  selectedRows : List (String × Bool)
  refetchPage : Option Nat
  deriving Repr, DecidableEq

/-- `handleBulkStatusConfirm` (ContactManagement.tsx lines 348-369).
With `bulkStatusToSet = none` the guard returns at once and nothing
happens. Otherwise `updateContactStatus(id, status)` is issued for every
selected id via `Promise.all`; when all calls succeed the selection is
cleared and the current page refetched, and when one fails the catch
shows an error and neither the clear nor the refetch runs. -/
def handleBulkStatusConfirm (rows : List (String × Bool))
    (bulkStatusToSet : Option ContactStatus) (currentPage : Nat)
    (allSucceed : Bool) : BulkStatusOutcome :=
  match bulkStatusToSet with
  | none => { statusCalls := [], selectedRows := rows, refetchPage := none }
  | some st =>
    let calls := (selectedIds rows).map fun id => (id, st)
    if allSucceed then
      { statusCalls := calls, selectedRows := [], refetchPage := some currentPage }
    else
      { statusCalls := calls, selectedRows := rows, refetchPage := none }

/-- One row of `response.erros` in a bulk-import response. -/
structure ImportError where
  row : Nat
  message : String
  deriving Repr, DecidableEq

/-- Response of `bulkImportContacts` as read by `handleBulkUpload`:
an optional `file` array of validation messages, an optional `success`
count, a `failure` count and an optional `erros` array. -/
structure BulkImportResponse where
  file : Option (List String)
  success : Option Nat
  failure : Nat
  erros : Option (List ImportError)
  deriving Repr, DecidableEq

/-- Toasts shown by the response-handling part of `handleBulkUpload`
(the upfront upload-started notice precedes the API call and is not part
of response handling). `fileValidation` carries `response.file[0]`,
`allImported` the full-success message data, `someFailed` the
partial-import message data, `rowError` one entry of `response.erros`
(its on-screen text is presentation-layer string munging of the entry). -/
inductive UploadToast where
  | fileValidation (msg : Option String)
  | allImported (succ : Nat)
  | someFailed (succ failure : Nat)
  | rowError (e : ImportError)
  deriving Repr, DecidableEq

/-- Observable outcome of the bulk-upload response handling: toasts in
order and the page refetched (if any). -/
structure UploadOutcome where
  toasts : List UploadToast
  refetchPage : Option Nat
  deriving Repr, DecidableEq

/-- Response handling of `handleBulkUpload` (ContactManagement.tsx
lines 243-288). A present `response.file` (any array is truthy) reports
only the file-validation error and returns before the refetch. Otherwise
a defined `response.success` reports full success when
`response.failure === 0`, else the partial-import error followed by one
error per entry of `response.erros` (the `erros && erros.length > 0`
guard is equivalent to iterating the possibly-empty array), and in both
cases refetches the current page. -/
def handleBulkUpload (response : BulkImportResponse) (currentPage : Nat) :
    UploadOutcome :=
  match response.file with
  | some msgs =>
    { toasts := [UploadToast.fileValidation msgs.head?], refetchPage := none }
  | none =>
    match response.success with
    | none => { toasts := [], refetchPage := none }
    | some n =>
      if response.failure = 0 then
        { toasts := [UploadToast.allImported n], refetchPage := some currentPage }
      else
        { toasts := UploadToast.someFailed n response.failure ::
            (response.erros.getD []).map UploadToast.rowError
          refetchPage := some currentPage }

/-- A concrete contact used to instantiate proved properties. -/
def sampleContact : Contact where
  id := "c1"
  company_name := "Acme Pharma"
  company_website := ""
  person_name := "Jordan"
  designation := "Buyer"
  department := "Purchase"
  company_type := "Pharmaceutical"
  city := "Basel"
  person_country := "CH"
  email := ""
  phone := ""
  is_verified := 0

/-- A second concrete contact with a different id. -/
def sampleContact2 : Contact :=
  { sampleContact with id := "c2", person_name := "Sam" }

/-- A concrete reveal patch: the server-confirmed email and phone. -/
def samplePatch : ContactPatch where
  email := some "jordan(at)acme.example"
  phone := some "+41-000"

/-- Concrete listing search parameters with two selected companies. -/
def sampleParams : SearchParams where
  company_name := ["Acme Pharma", "Beta Labs"]
  person_name := ""
  department := ""
  designation := ""
  company_type := ""
  person_country := ""
  company_country := ""
  city := ""

/-- A concrete listing state with one loaded contact and enough credits. -/
def sampleState : ListingState where
  allContacts := [sampleContact]
  currentPage := 1
  hasMoreData := true
  isLoading := false
  totalItems := 2
  searchParams := sampleParams
  coins := 100

/-- The same state with too few credits. -/
def sampleLowState : ListingState :=
  { sampleState with coins := 10 }

/-- A concrete page-2-of-2 contacts response. -/
def sampleResponse : ContactsResponse where
  data := [sampleContact2]
  total := 2
  current_page := 2
  last_page := 2

/-- A concrete reveal response. -/
def sampleReveal : RevealResponse where
  contact := samplePatch
  available_credit := 70

/-- A concrete admin selection record with two of three rows selected. -/
def sampleRows : List (String × Bool) :=
  [("r1", true), ("r2", false), ("r3", true)]

/-- A concrete bulk-import response carrying a file validation error. -/
def fileResp : BulkImportResponse :=
  { file := some ["bad header"], success := none, failure := 0, erros := none }

/-- A concrete fully successful bulk-import response. -/
def okResp : BulkImportResponse :=
  { file := none, success := some 5, failure := 0, erros := none }

/-- A concrete bulk-import response with failures and one row error. -/
def mixedResp : BulkImportResponse :=
  { file := none, success := some 3, failure := 2,
    erros := some [{ row := 4, message := "boom" }] }

/-- Claim C1: a successful load-more fetch accumulates exactly
old list concatenated with the response data, preserving every previously
loaded contact at its original position, and loadMoreContacts increments
currentPage by exactly 1 and requests exactly that page. -/
theorem C1_loadMore_appends (s : ListingState) (response : ContactsResponse) :
    (loadMoreContacts s (some response)).2.allContacts
        = s.allContacts ++ response.data
    ∧ (∀ i, i < s.allContacts.length →
        (loadMoreContacts s (some response)).2.allContacts[i]? = s.allContacts[i]?)
    ∧ (loadMoreContacts s (some response)).2.currentPage = s.currentPage + 1
    ∧ (loadMoreContacts s (some response)).1.page = s.currentPage + 1 := by
  refine ⟨rfl, ?_, rfl, rfl⟩
  intro i hi
  show (s.allContacts ++ response.data)[i]? = s.allContacts[i]?
  exact List.getElem?_append_left hi

/-- Witness for C1 at a concrete one-element list and a page-2 response. -/
theorem C1_loadMore_appends_witness :
    (loadMoreContacts sampleState (some sampleResponse)).2.allContacts
        = sampleState.allContacts ++ sampleResponse.data
    ∧ (loadMoreContacts sampleState (some sampleResponse)).2.allContacts[0]?
        = sampleState.allContacts[0]?
    ∧ (loadMoreContacts sampleState (some sampleResponse)).2.currentPage
        = sampleState.currentPage + 1
    ∧ (loadMoreContacts sampleState (some sampleResponse)).1.page
        = sampleState.currentPage + 1 := by
  have h := C1_loadMore_appends sampleState sampleResponse
  exact ⟨h.1, h.2.1 0 (by decide), h.2.2.1, h.2.2.2⟩

/-- Claim C2: a searchParams change resets the infinite-scroll state
(currentPage 1, empty list, hasMoreData true) before refetching, and the
fresh non-load-more page-1 fetch replaces the list with the response
data rather than appending. -/
theorem C2_searchParams_reset (s : ListingState) (response : ContactsResponse) :
    (resetInfiniteScroll s).currentPage = 1
    ∧ (resetInfiniteScroll s).allContacts = []
    ∧ (resetInfiniteScroll s).hasMoreData = true
    ∧ (onSearchParamsChange s (some response)).1.page = 1
    ∧ (onSearchParamsChange s (some response)).2.allContacts = response.data
    ∧ (onSearchParamsChange s (some response)).2.currentPage = 1 :=
  ⟨rfl, rfl, rfl, rfl, rfl, rfl⟩

/-- Claim C3: a successful reveal patches exactly the elements whose id
equals the revealed contact's id with the server-confirmed fields, leaves
every other element unchanged, keeps the list length, and sets coins to
the response's available credit. -/
theorem C3_reveal_patch (s : ListingState) (contact : Contact)
    (response : RevealResponse) (h : 50 < s.coins) :
    (handleRevealContact s contact (some response)).state.allContacts.length
        = s.allContacts.length
    ∧ (∀ (i : Nat) (c : Contact), s.allContacts[i]? = some c →
        (handleRevealContact s contact (some response)).state.allContacts[i]?
          = some (if c.id = contact.id then applyPatch c response.contact else c))
    ∧ (handleRevealContact s contact (some response)).state.coins
        = response.available_credit := by
  have hcond : ¬ s.coins ≤ 50 := not_le.mpr h
  refine ⟨?_, ?_, ?_⟩
  · simp [handleRevealContact, hcond]
  · intro i c hc
    simp [handleRevealContact, hcond, List.getElem?_map, hc]
  · simp [handleRevealContact, hcond]

/-- Witness for C3 at a concrete state, contact and reveal response. -/
theorem C3_reveal_patch_witness :
    50 < sampleState.coins
    ∧ (handleRevealContact sampleState sampleContact (some sampleReveal)).state.allContacts.length
        = sampleState.allContacts.length
    ∧ (handleRevealContact sampleState sampleContact (some sampleReveal)).state.allContacts[0]?
        = some (if sampleContact.id = sampleContact.id
            then applyPatch sampleContact sampleReveal.contact else sampleContact)
    ∧ (handleRevealContact sampleState sampleContact (some sampleReveal)).state.coins
        = sampleReveal.available_credit := by
  have h := C3_reveal_patch sampleState sampleContact sampleReveal (by decide)
  exact ⟨by decide, h.1, h.2.1 0 sampleContact rfl, h.2.2⟩

/-- Claim C4: the query composed by the listing fetchContacts sends each
searchParams field unchanged except company_name, joined into a
comma-separated string, together with the requested page and
per_page = ITEMS_PER_PAGE = 10. -/
theorem C4_api_params (sp : SearchParams) (page : Nat) (s : ListingState)
    (isLoadMore : Bool) (result : Option ContactsResponse) :
    (toApiParams sp page).company_name = String.intercalate "," sp.company_name
    ∧ (toApiParams sp page).person_name = sp.person_name
    ∧ (toApiParams sp page).department = sp.department
    ∧ (toApiParams sp page).designation = sp.designation
    ∧ (toApiParams sp page).company_type = sp.company_type
    ∧ (toApiParams sp page).person_country = sp.person_country
    ∧ (toApiParams sp page).company_country = sp.company_country
    ∧ (toApiParams sp page).city = sp.city
    ∧ (toApiParams sp page).page = page
    ∧ (toApiParams sp page).per_page = 10
    ∧ ITEMS_PER_PAGE = 10
    ∧ (fetchContacts s page isLoadMore result).1 = toApiParams s.searchParams page := by
  refine ⟨rfl, rfl, rfl, rfl, rfl, rfl, rfl, rfl, rfl, rfl, rfl, ?_⟩
  cases result <;> cases isLoadMore <;> rfl

/-- Claim C5: every successful listing fetch sets totalItems to the
response total and hasMoreData to the comparison of current and last
page; hasMoreData is false exactly when the response reports that the
current page has reached (or passed) the last page. -/
theorem C5_pagination_state (s : ListingState) (page : Nat) (isLoadMore : Bool)
    (response : ContactsResponse) :
    (fetchContacts s page isLoadMore (some response)).2.totalItems = response.total
    ∧ (fetchContacts s page isLoadMore (some response)).2.hasMoreData
        = decide (response.current_page < response.last_page)
    ∧ ((fetchContacts s page isLoadMore (some response)).2.hasMoreData = false
        ↔ response.last_page ≤ response.current_page) := by
  refine ⟨rfl, rfl, ?_⟩
  show decide (response.current_page < response.last_page) = false ↔ _
  simp [decide_eq_false_iff_not, Nat.not_lt]

/-- Claim C10: a thrown getContacts call during a non-load-more listing
fetch resets the view to empty, while during a load-more fetch it leaves
allContacts, totalItems, hasMoreData and isLoading all unchanged. -/
theorem C10_fetch_error (s : ListingState) (page : Nat) :
    (fetchContacts s page false none).2.allContacts = []
    ∧ (fetchContacts s page false none).2.totalItems = 0
    ∧ (fetchContacts s page false none).2.hasMoreData = false
    ∧ (fetchContacts s page true none).2.allContacts = s.allContacts
    ∧ (fetchContacts s page true none).2.totalItems = s.totalItems
    ∧ (fetchContacts s page true none).2.hasMoreData = s.hasMoreData
    ∧ (fetchContacts s page true none).2.isLoading = s.isLoading :=
  ⟨rfl, rfl, rfl, rfl, rfl, rfl, rfl⟩

/-- Claim C9: with coins at most 50 the reveal handler returns before the
API call, leaving the state untouched and showing only the
insufficient-credits error; the reveal request is issued exactly when
coins exceed 50. -/
theorem C9_insufficient_credits (s : ListingState) (contact : Contact)
    (result : Option RevealResponse) :
    ((handleRevealContact s contact result).apiCalled = true ↔ 50 < s.coins)
    ∧ (s.coins ≤ 50 →
        handleRevealContact s contact result =
          { state := s, apiCalled := false,
            toasts := [(insufficientCreditsMsg, ToastKind.error)] }) := by
  by_cases h : s.coins ≤ 50
  · refine ⟨?_, fun _ => by simp [handleRevealContact, h]⟩
    simp [handleRevealContact, h, Nat.not_lt.mpr h]
  · refine ⟨?_, fun hc => absurd hc h⟩
    cases result <;> simp [handleRevealContact, h, not_le.mp h]

/-- Witness for C9 at a concrete low-credit state. -/
theorem C9_insufficient_credits_witness :
    sampleLowState.coins ≤ 50
    ∧ ((handleRevealContact sampleLowState sampleContact (some sampleReveal)).apiCalled = true
        ↔ 50 < sampleLowState.coins)
    ∧ handleRevealContact sampleLowState sampleContact (some sampleReveal) =
        { state := sampleLowState, apiCalled := false,
          toasts := [(insufficientCreditsMsg, ToastKind.error)] } := by
  have h := C9_insufficient_credits sampleLowState sampleContact (some sampleReveal)
  exact ⟨by decide, h.1, h.2 (by decide)⟩

/-- For a string value, the JavaScript guard of the admin filter
(truthy and non-empty after trimming) is equivalent to the trimmed value
being non-empty. -/
theorem keptEntry_eq_trim (v : String) : keptEntry v = decide (v.trim ≠ "") := by
  by_cases h : v = ""
  · subst h
    have htrim : "".trim = "" := by
      unfold String.trim Substring.trim String.toSubstring
      unfold Substring.takeWhileAux Substring.takeRightWhileAux
      simp [String.endPos, String.utf8ByteSize, Substring.toString, String.extract]
    simp [keptEntry, htrim]
  · simp [keptEntry, h]

/-- Claim C6: the admin fetch sends exactly the searchParams entries that
are non-empty after trimming, plus page and per_page = 10; with
resetFilters set, no filter entries are sent regardless of the current
searchParams. -/
theorem C6_admin_filter_params (sp : AdminSearchParams) (page : Nat) :
    (adminFetchRequest sp page false).filters
        = (adminEntries sp).filter (fun kv => decide (kv.2.trim ≠ ""))
    ∧ (adminFetchRequest sp page false).page = page
    ∧ (adminFetchRequest sp page false).per_page = 10
    ∧ adminFetchRequest sp page true =
        { filters := [], page := page, per_page := 10 } := by
  refine ⟨?_, rfl, rfl, rfl⟩
  show (adminEntries sp).filter (fun kv => keptEntry kv.2) = _
  exact List.filter_congr fun kv _ => keptEntry_eq_trim kv.2

/-- Claim C7: with a chosen status, confirming the bulk status change
issues one updateContactStatus call per selected id and no other, then
clears the selection and refetches the current page; with no chosen
status the handler does nothing. -/
theorem C7_bulk_status (rows : List (String × Bool)) (st : ContactStatus)
    (page : Nat) (b : Bool) :
    (∀ p : String × ContactStatus,
        p ∈ (handleBulkStatusConfirm rows (some st) page true).statusCalls
          ↔ p.2 = st ∧ (p.1, true) ∈ rows)
    ∧ ((rows.map Prod.fst).Nodup →
        (handleBulkStatusConfirm rows (some st) page true).statusCalls.Nodup)
    ∧ (handleBulkStatusConfirm rows (some st) page true).selectedRows = []
    ∧ (handleBulkStatusConfirm rows (some st) page true).refetchPage = some page
    ∧ handleBulkStatusConfirm rows none page b =
        { statusCalls := [], selectedRows := rows, refetchPage := none } := by
  refine ⟨?_, ?_, rfl, rfl, rfl⟩
  · intro p
    show p ∈ (selectedIds rows).map (fun id => (id, st)) ↔ _
    simp only [selectedIds, List.mem_map, List.mem_filter]
    constructor
    · rintro ⟨a, ⟨⟨⟨k, v⟩, ⟨hmem, hv⟩, hk⟩, hp⟩⟩
      subst hp
      refine ⟨rfl, ?_⟩
      simp only at hk hv
      rw [show ((a, st) : String × ContactStatus).1 = a from rfl, ← hk, ← hv]
      exact hmem
    · rintro ⟨hst, hmem⟩
      refine ⟨p.1, ⟨⟨(p.1, true), ⟨hmem, rfl⟩, rfl⟩, ?_⟩⟩
      cases p
      simp_all
  · intro h
    show ((selectedIds rows).map (fun id => (id, st))).Nodup
    have hsub : List.Sublist (selectedIds rows) (rows.map Prod.fst) :=
      (List.filter_sublist rows).map Prod.fst
    have hids : (selectedIds rows).Nodup := h.sublist hsub
    exact hids.map fun a b hab => congrArg Prod.fst hab

/-- Witness for C7 at a concrete selection of two rows out of three. -/
theorem C7_bulk_status_witness :
    (("r1", ContactStatus.Active)
        ∈ (handleBulkStatusConfirm sampleRows (some ContactStatus.Active) 3 true).statusCalls)
    ∧ (handleBulkStatusConfirm sampleRows (some ContactStatus.Active) 3 true).statusCalls.Nodup
    ∧ (handleBulkStatusConfirm sampleRows (some ContactStatus.Active) 3 true).selectedRows = []
    ∧ (handleBulkStatusConfirm sampleRows (some ContactStatus.Active) 3 true).refetchPage = some 3
    ∧ handleBulkStatusConfirm sampleRows none 3 false =
        { statusCalls := [], selectedRows := sampleRows, refetchPage := none } := by
  have h := C7_bulk_status sampleRows ContactStatus.Active 3 false
  exact ⟨(h.1 ("r1", ContactStatus.Active)).mpr ⟨rfl, by decide⟩, h.2.1 (by decide),
    h.2.2.1, h.2.2.2.1, h.2.2.2.2⟩

/-- Claim C8: a present file field reports only the file-validation error
and skips the refetch; otherwise a defined success count reports full
success when failure is zero and the partial-import error plus one error
per erros entry when failure is nonzero, refetching the current page in
both of those cases. -/
theorem C8_bulk_upload (response : BulkImportResponse) (page : Nat) :
    (∀ msgs, response.file = some msgs →
        handleBulkUpload response page =
          { toasts := [UploadToast.fileValidation msgs.head?], refetchPage := none })
    ∧ (∀ n, response.file = none → response.success = some n →
        response.failure = 0 →
          handleBulkUpload response page =
            { toasts := [UploadToast.allImported n], refetchPage := some page })
    ∧ (∀ n, response.file = none → response.success = some n →
        response.failure ≠ 0 →
          handleBulkUpload response page =
              { toasts := UploadToast.someFailed n response.failure ::
                  (response.erros.getD []).map UploadToast.rowError
                refetchPage := some page }
            ∧ (handleBulkUpload response page).toasts.length
                = 1 + (response.erros.getD []).length) := by
  obtain ⟨file, succ, flr, errs⟩ := response
  refine ⟨?_, ?_, ?_⟩
  · intro msgs hf
    simp only at hf
    subst hf
    rfl
  · intro n hf hs hz
    simp only at hf hs hz
    subst hf; subst hs; subst hz
    rfl
  · intro n hf hs hnz
    simp only at hf hs hnz
    subst hf; subst hs
    refine ⟨?_, ?_⟩
    · simp [handleBulkUpload, hnz]
    · simp [handleBulkUpload, hnz, Nat.add_comm]

/-- Witness for C8 at three concrete bulk-import responses: a file
validation error, a full success and a mixed result with one row error. -/
theorem C8_bulk_upload_witness :
    fileResp.file = some ["bad header"]
    ∧ handleBulkUpload fileResp 2 =
        { toasts := [UploadToast.fileValidation (some "bad header")], refetchPage := none }
    ∧ okResp.file = none ∧ okResp.success = some 5 ∧ okResp.failure = 0
    ∧ handleBulkUpload okResp 2 =
        { toasts := [UploadToast.allImported 5], refetchPage := some 2 }
    ∧ mixedResp.failure ≠ 0
    ∧ handleBulkUpload mixedResp 2 =
        { toasts := [UploadToast.someFailed 3 2,
            UploadToast.rowError { row := 4, message := "boom" }],
          refetchPage := some 2 }
    ∧ (handleBulkUpload mixedResp 2).toasts.length = 2 := by
  have h1 := (C8_bulk_upload fileResp 2).1 ["bad header"] rfl
  have h2 := (C8_bulk_upload okResp 2).2.1 5 rfl rfl rfl
  have h3 := (C8_bulk_upload mixedResp 2).2.2 3 rfl rfl (by decide)
  exact ⟨rfl, h1, rfl, rfl, rfl, h2, by decide, h3.1, h3.2⟩

end PharmaContacts
